import Mathlib

/-
  Verification of the WhiteMatter Snow Production Cost Model.

  The repository snapshot contains only the README and a data-exploration
  notebook; the Streamlit application holding the cost-model formulas is not
  present.  The cost-model definitions below are therefore modelled from the
  specification (section 4.1), using exact rational arithmetic.  The constants
  of the raster-clipping cell of src/data_exploration.ipynb are transcribed
  from the notebook source.
-/

namespace WhiteMatter

/-- Modelled from the spec: the error kinds of the Snow Production Cost Model
(spec section 7).  The Streamlit implementation is missing from the repository
snapshot, so the error taxonomy is taken from the specification. -/
inductive ModelError where
  | InvalidInput
  | DivisionByZero
deriving DecidableEq, Repr

/-- Modelled from the spec: `compute_snow_volume(area, depth) → volume`,
volume = area × depth, both non-negative; fails on negative input with
`InvalidInput`.  The implementation is missing from the repository snapshot. -/
def compute_snow_volume (area depth : ℚ) : Except ModelError ℚ :=
  if area < 0 ∨ depth < 0 then .error .InvalidInput else .ok (area * depth)

/-- Modelled from the spec: `compute_water_demand(volume, water_ratio,
efficiency) → water_volume = volume × water_ratio × (1 − efficiency)`; the
spec gives efficiency the default value 0.  The implementation is missing
from the repository snapshot. -/
def compute_water_demand (volume water_ratio efficiency : ℚ) : ℚ :=
  volume * water_ratio * (1 - efficiency)

/-- Modelled from the spec: `compute_energy_demand(volume, energy_ratio,
efficiency) → energy_kwh`, analogous to the water demand.  The implementation
is missing from the repository snapshot. -/
def compute_energy_demand (volume energy_ratio efficiency : ℚ) : ℚ :=
  volume * energy_ratio * (1 - efficiency)

/-- Modelled from the spec: `compute_cost(water_volume, energy_kwh,
water_price, energy_price) → total_cost = water_volume × water_price +
energy_kwh × energy_price`.  The implementation is missing from the
repository snapshot. -/
def compute_cost (water_volume energy_kwh water_price energy_price : ℚ) : ℚ :=
  water_volume * water_price + energy_kwh * energy_price

/-- Modelled from the spec: the Scenario Input entity (spec section 3) — the
named scalar quantities supplied by the user.  The implementation is missing
from the repository snapshot. -/
structure ScenarioInput where
  area : ℚ
  depth : ℚ
  water_ratio : ℚ
  energy_ratio : ℚ
  water_price : ℚ
  energy_price : ℚ
  efficiency : ℚ
deriving DecidableEq, Repr

/-- Modelled from the spec: the Scenario Result entity (spec section 3) —
computed water volume, energy consumption and monetary cost for one mode. -/
structure ScenarioResult where
  water_volume : ℚ
  energy_kwh : ℚ
  total_cost : ℚ
deriving DecidableEq, Repr

/-- Modelled from the spec: boundary validation (spec sections 6 and 7) —
all quantities must be ≥ 0 and the efficiency factor must lie in [0, 1).
The implementation is missing from the repository snapshot. -/
def validInput (i : ScenarioInput) : Bool :=
  decide (0 ≤ i.area) && decide (0 ≤ i.depth) &&
  decide (0 ≤ i.water_ratio) && decide (0 ≤ i.energy_ratio) &&
  decide (0 ≤ i.water_price) && decide (0 ≤ i.energy_price) &&
  decide (0 ≤ i.efficiency) && decide (i.efficiency < 1)

/-- Modelled from the spec: evaluation of one Scenario Result for a given
snow volume and efficiency factor, composing the demand and cost formulas. -/
def evalScenario (i : ScenarioInput) (e : ℚ) (volume : ℚ) : ScenarioResult :=
  let w := compute_water_demand volume i.water_ratio e
  let k := compute_energy_demand volume i.energy_ratio e
  { water_volume := w
    energy_kwh := k
    total_cost := compute_cost w k i.water_price i.energy_price }

/-- Modelled from the spec: the result of `compare_scenarios` — both Scenario
Results plus the derived savings; the percentage is flagged with
`DivisionByZero` rather than crashing when the baseline cost is zero. -/
structure Comparison where
  baseline : ScenarioResult
  assisted : ScenarioResult
  savings_absolute : ℚ
  savings_percent : Except ModelError ℚ
deriving Repr

/-- Modelled from the spec: `compare_scenarios(input)` (spec section 4.1) —
validates the input at the boundary, evaluates the baseline with efficiency 0
and the assisted scenario with the configured efficiency, and derives the
absolute and percentage savings.  The implementation is missing from the
repository snapshot. -/
def compare_scenarios (i : ScenarioInput) : Except ModelError Comparison :=
  if validInput i then
    match compute_snow_volume i.area i.depth with
    | .error e => .error e
    | .ok volume =>
      let baseline := evalScenario i 0 volume
      let assisted := evalScenario i i.efficiency volume
      let sa := baseline.total_cost - assisted.total_cost
      .ok { baseline := baseline
            assisted := assisted
            savings_absolute := sa
            savings_percent :=
              if baseline.total_cost = 0 then .error .DivisionByZero
              else .ok (sa / baseline.total_cost) }
  else .error .InvalidInput

/-- The example Scenario Input of spec section 8: area 10000, depth 0.3,
water ratio 0.5, energy ratio 2, water price 0.002, energy price 0.15,
efficiency 0.2. -/
def exInput : ScenarioInput :=
  { area := 10000
    depth := 0.3
    water_ratio := 0.5
    energy_ratio := 2
    water_price := 0.002
    energy_price := 0.15
    efficiency := 0.2 }

/-- Transcribed from src/data_exploration.ipynb, raster-clipping cell:
`center = (46.846, 9.265)` — the marked Laax center as (latitude, longitude). -/
def center : ℚ × ℚ := (46.846, 9.265)

/-- Transcribed from src/data_exploration.ipynb, raster-clipping cell:
`bbox = (9.1506, 46.8015, 9.2876, 46.8827)` — the clipping bounding box as
(lon_min, lat_min, lon_max, lat_max). -/
def bbox : ℚ × ℚ × ℚ × ℚ := (9.1506, 46.8015, 9.2876, 46.8827)

/-- Unfolding of the boundary validation into its eight conditions. -/
lemma validInput_iff (i : ScenarioInput) :
    validInput i = true ↔
      0 ≤ i.area ∧ 0 ≤ i.depth ∧ 0 ≤ i.water_ratio ∧ 0 ≤ i.energy_ratio ∧
      0 ≤ i.water_price ∧ 0 ≤ i.energy_price ∧
      0 ≤ i.efficiency ∧ i.efficiency < 1 := by
  simp [validInput, and_assoc]

/-- On a valid input, `compare_scenarios` succeeds and returns exactly the
comparison assembled from the two evaluated scenarios. -/
lemma compare_scenarios_eq (i : ScenarioInput) (h : validInput i = true) :
    compare_scenarios i =
      .ok { baseline := evalScenario i 0 (i.area * i.depth)
            assisted := evalScenario i i.efficiency (i.area * i.depth)
            savings_absolute :=
              (evalScenario i 0 (i.area * i.depth)).total_cost -
                (evalScenario i i.efficiency (i.area * i.depth)).total_cost
            savings_percent :=
              if (evalScenario i 0 (i.area * i.depth)).total_cost = 0 then
                .error .DivisionByZero
              else
                .ok (((evalScenario i 0 (i.area * i.depth)).total_cost -
                    (evalScenario i i.efficiency (i.area * i.depth)).total_cost) /
                  (evalScenario i 0 (i.area * i.depth)).total_cost) } := by
  obtain ⟨hA, hD, -⟩ := (validInput_iff i).mp h
  have hvol : ¬ (i.area < 0 ∨ i.depth < 0) := by
    push_neg
    exact ⟨hA, hD⟩
  simp only [compare_scenarios, h, if_true, compute_snow_volume, hvol, if_false,
    if_neg hvol]

/-- The example input passes boundary validation. -/
lemma exInput_valid : validInput exInput = true := by
  rw [validInput_iff]
  norm_num [exInput]

/-- A concrete invalid Scenario Input: its depth is negative. -/
def badInput : ScenarioInput :=
  { area := 1
    depth := -1
    water_ratio := 1
    energy_ratio := 1
    water_price := 1
    energy_price := 1
    efficiency := 0 }

/-- Non-negativity of all three fields of an evaluated scenario, for a
non-negative volume, ratios and prices and an efficiency at most 1. -/
lemma evalScenario_nonneg (i : ScenarioInput) (e v : ℚ)
    (hv : 0 ≤ v) (hwr : 0 ≤ i.water_ratio) (her : 0 ≤ i.energy_ratio)
    (hwp : 0 ≤ i.water_price) (hep : 0 ≤ i.energy_price) (he : e ≤ 1) :
    0 ≤ (evalScenario i e v).water_volume ∧
    0 ≤ (evalScenario i e v).energy_kwh ∧
    0 ≤ (evalScenario i e v).total_cost := by
  have h1e : (0:ℚ) ≤ 1 - e := by linarith
  have hw : 0 ≤ v * i.water_ratio * (1 - e) := mul_nonneg (mul_nonneg hv hwr) h1e
  have hk : 0 ≤ v * i.energy_ratio * (1 - e) := mul_nonneg (mul_nonneg hv her) h1e
  refine ⟨?_, ?_, ?_⟩ <;>
    simp only [evalScenario, compute_water_demand, compute_energy_demand,
      compute_cost]
  · exact hw
  · exact hk
  · exact add_nonneg (mul_nonneg hw hwp) (mul_nonneg hk hep)

/-- C1: for every non-negative area A and non-negative depth D,
`compute_snow_volume(A, D)` returns exactly A * D. -/
theorem compute_snow_volume_spec (A D : ℚ) (hA : 0 ≤ A) (hD : 0 ≤ D) :
    compute_snow_volume A D = .ok (A * D) := by
  have h : ¬ (A < 0 ∨ D < 0) := by
    push_neg
    exact ⟨hA, hD⟩
  simp [compute_snow_volume, h]

/-- Witness for C1 at area 3, depth 2. -/
theorem compute_snow_volume_spec_witness :
    compute_snow_volume 3 2 = .ok (3 * 2) :=
  compute_snow_volume_spec 3 2 (by norm_num) (by norm_num)

/-- C2: for every volume V, ratio r and efficiency e, `compute_water_demand`
returns V * r * (1 − e) and `compute_energy_demand` returns the analogous
value; with the default efficiency 0 both reduce to V * r. -/
theorem compute_demand_spec (V r e : ℚ) :
    compute_water_demand V r e = V * r * (1 - e) ∧
    compute_energy_demand V r e = V * r * (1 - e) ∧
    compute_water_demand V r 0 = V * r ∧
    compute_energy_demand V r 0 = V * r := by
  refine ⟨rfl, rfl, ?_, ?_⟩ <;>
    simp [compute_water_demand, compute_energy_demand]

/-- C3: for every water volume w, energy amount k, water price pw and energy
price pe, `compute_cost` returns exactly w * pw + k * pe. -/
theorem compute_cost_spec (w k pw pe : ℚ) :
    compute_cost w k pw pe = w * pw + k * pe := rfl

/-- C8: `compare_scenarios` is deterministic — two calls with identical
inputs return identical results. -/
theorem compare_scenarios_deterministic (i j : ScenarioInput) (h : i = j) :
    compare_scenarios i = compare_scenarios j := by
  rw [h]

/-- Witness for C8 at the example input. -/
theorem compare_scenarios_deterministic_witness :
    compare_scenarios exInput = compare_scenarios exInput :=
  compare_scenarios_deterministic exInput exInput rfl

/-- C4: on every valid input, `compare_scenarios` returns the baseline
evaluated with efficiency 0 and the assisted result with the configured
efficiency, savings_absolute = baseline cost − assisted cost; the percentage
is savings_absolute / baseline cost, flagged with `DivisionByZero` instead of
computed when the baseline cost is zero. -/
theorem compare_scenarios_spec (i : ScenarioInput) (h : validInput i = true) :
    ∃ c : Comparison, compare_scenarios i = .ok c ∧
      c.baseline = evalScenario i 0 (i.area * i.depth) ∧
      c.assisted = evalScenario i i.efficiency (i.area * i.depth) ∧
      c.savings_absolute = c.baseline.total_cost - c.assisted.total_cost ∧
      (c.baseline.total_cost = 0 → c.savings_percent = .error .DivisionByZero) ∧
      (c.baseline.total_cost ≠ 0 →
        c.savings_percent = .ok (c.savings_absolute / c.baseline.total_cost)) := by
  refine ⟨_, compare_scenarios_eq i h, rfl, rfl, rfl, ?_, ?_⟩ <;>
    intro hz <;> simp only at hz ⊢ <;> simp [hz]

/-- Witness for C4 at the example input. -/
theorem compare_scenarios_spec_witness :
    validInput exInput = true ∧
      (∃ c : Comparison, compare_scenarios exInput = .ok c ∧
        c.baseline = evalScenario exInput 0 (exInput.area * exInput.depth) ∧
        c.assisted =
          evalScenario exInput exInput.efficiency
            (exInput.area * exInput.depth) ∧
        c.savings_absolute = c.baseline.total_cost - c.assisted.total_cost ∧
        (c.baseline.total_cost = 0 →
          c.savings_percent = .error .DivisionByZero) ∧
        (c.baseline.total_cost ≠ 0 →
          c.savings_percent =
            .ok (c.savings_absolute / c.baseline.total_cost))) :=
  ⟨exInput_valid, compare_scenarios_spec exInput exInput_valid⟩

/-- C5 (amended): for non-negative volume and ratio and efficiency
e ∈ [0,1), the assisted water and energy demands are at most the baseline
demands, with equality iff e = 0 or the product volume × ratio is zero. -/
theorem demand_le_baseline (V r e : ℚ) (hV : 0 ≤ V) (hr : 0 ≤ r)
    (he0 : 0 ≤ e) (he1 : e < 1) :
    compute_water_demand V r e ≤ compute_water_demand V r 0 ∧
    compute_energy_demand V r e ≤ compute_energy_demand V r 0 ∧
    (compute_water_demand V r e = compute_water_demand V r 0 ↔
      e = 0 ∨ V * r = 0) ∧
    (compute_energy_demand V r e = compute_energy_demand V r 0 ↔
      e = 0 ∨ V * r = 0) := by
  have hVr : 0 ≤ V * r := mul_nonneg hV hr
  have hle : V * r * (1 - e) ≤ V * r * (1 - 0) :=
    mul_le_mul_of_nonneg_left (by linarith) hVr
  have hiff : V * r * (1 - e) = V * r * (1 - 0) ↔ e = 0 ∨ V * r = 0 := by
    constructor
    · intro hEq
      have h2 : V * r * e = 0 := by linear_combination -hEq
      rcases mul_eq_zero.mp h2 with h3 | h3
      · exact Or.inr h3
      · exact Or.inl h3
    · rintro (h0 | h0) <;> simp [h0]
  exact ⟨hle, hle, hiff, hiff⟩

/-- Witness for C5 at volume 2, ratio 3, efficiency 1/2. -/
theorem demand_le_baseline_witness :
    compute_water_demand 2 3 (1/2) ≤ compute_water_demand 2 3 0 ∧
    compute_energy_demand 2 3 (1/2) ≤ compute_energy_demand 2 3 0 ∧
    (compute_water_demand 2 3 (1/2) = compute_water_demand 2 3 0 ↔
      (1:ℚ)/2 = 0 ∨ (2:ℚ) * 3 = 0) ∧
    (compute_energy_demand 2 3 (1/2) = compute_energy_demand 2 3 0 ↔
      (1:ℚ)/2 = 0 ∨ (2:ℚ) * 3 = 0) :=
  demand_le_baseline 2 3 (1/2) (by norm_num) (by norm_num) (by norm_num)
    (by norm_num)

/-- Counterexample for C5 as stated: at volume 0, ratio 1 and efficiency 1/2
(all non-negative, efficiency in [0,1)), the assisted demand equals the
baseline demand although the efficiency is not zero, so "equality iff e = 0"
fails. -/
theorem demand_equality_counterexample :
    (0:ℚ) ≤ 0 ∧ (0:ℚ) ≤ 1 ∧ (0:ℚ) ≤ 1/2 ∧ (1:ℚ)/2 < 1 ∧
    compute_water_demand 0 1 (1/2) = compute_water_demand 0 1 0 ∧
    (1:ℚ)/2 ≠ 0 := by
  norm_num [compute_water_demand]

/-- C6: on the spec's example input (area 10000, depth 0.3, water ratio 0.5,
energy ratio 2, water price 0.002, energy price 0.15, efficiency 0.2) the
model yields volume 3000, baseline water 1500, baseline energy 6000, baseline
cost 903, assisted water 1200, assisted energy 4800, assisted cost 722.4,
savings 180.6 absolute and 20 percent. -/
theorem example_scenario_values :
    compute_snow_volume exInput.area exInput.depth = .ok 3000 ∧
    compare_scenarios exInput = .ok
      { baseline := { water_volume := 1500, energy_kwh := 6000,
                      total_cost := 903 }
        assisted := { water_volume := 1200, energy_kwh := 4800,
                      total_cost := 722.4 }
        savings_absolute := 180.6
        savings_percent := .ok 0.2 } := by
  constructor
  · simp only [compute_snow_volume, exInput]
    norm_num
  · simp only [compare_scenarios, exInput_valid, if_true]
    norm_num [compute_snow_volume, exInput, evalScenario, compute_water_demand,
      compute_energy_demand, compute_cost]

/-- C7: an input failing boundary validation — in particular one with a
negative depth — is rejected by `compare_scenarios` with `InvalidInput`; no
result record is produced, so no formula output is observable. -/
theorem invalid_input_rejected (i : ScenarioInput) :
    (validInput i = false → compare_scenarios i = .error .InvalidInput) ∧
    (i.depth < 0 → compare_scenarios i = .error .InvalidInput) := by
  constructor
  · intro h
    simp [compare_scenarios, h]
  · intro h
    have hd : ¬ (0 ≤ i.depth) := not_le.mpr h
    have hv : validInput i = false := by
      simp [validInput, hd]
    simp [compare_scenarios, hv]

/-- Witness for C7 at a concrete input with negative depth. -/
theorem invalid_input_rejected_witness :
    badInput.depth < 0 ∧
    compare_scenarios badInput = .error .InvalidInput :=
  ⟨by norm_num [badInput],
    (invalid_input_rejected badInput).2 (by norm_num [badInput])⟩

/-- C9: on every valid input (all quantities non-negative, efficiency in
[0,1)), every computed Scenario Result value — water volume, energy and total
cost — is non-negative, in both the baseline and the assisted mode. -/
theorem results_nonneg (i : ScenarioInput) (h : validInput i = true) :
    ∃ c : Comparison, compare_scenarios i = .ok c ∧
      0 ≤ c.baseline.water_volume ∧ 0 ≤ c.baseline.energy_kwh ∧
      0 ≤ c.baseline.total_cost ∧
      0 ≤ c.assisted.water_volume ∧ 0 ≤ c.assisted.energy_kwh ∧
      0 ≤ c.assisted.total_cost := by
  obtain ⟨hA, hD, hwr, her, hwp, hep, he0, he1⟩ := (validInput_iff i).mp h
  have hv : 0 ≤ i.area * i.depth := mul_nonneg hA hD
  obtain ⟨hb1, hb2, hb3⟩ :=
    evalScenario_nonneg i 0 (i.area * i.depth) hv hwr her hwp hep (by norm_num)
  obtain ⟨ha1, ha2, ha3⟩ :=
    evalScenario_nonneg i i.efficiency (i.area * i.depth) hv hwr her hwp hep
      (le_of_lt he1)
  exact ⟨_, compare_scenarios_eq i h, hb1, hb2, hb3, ha1, ha2, ha3⟩

/-- Witness for C9 at the example input. -/
theorem results_nonneg_witness :
    validInput exInput = true ∧
      (∃ c : Comparison, compare_scenarios exInput = .ok c ∧
        0 ≤ c.baseline.water_volume ∧ 0 ≤ c.baseline.energy_kwh ∧
        0 ≤ c.baseline.total_cost ∧
        0 ≤ c.assisted.water_volume ∧ 0 ≤ c.assisted.energy_kwh ∧
        0 ≤ c.assisted.total_cost) :=
  ⟨exInput_valid, results_nonneg exInput exInput_valid⟩

/-- C10: the marked Laax center (latitude 46.846, longitude 9.265) lies
strictly inside the clipping bounding box (lon_min 9.1506, lat_min 46.8015,
lon_max 9.2876, lat_max 46.8827) of the notebook's raster-clipping cell. -/
theorem center_inside_bbox :
    bbox.1 < center.2 ∧ center.2 < bbox.2.2.1 ∧
    bbox.2.1 < center.1 ∧ center.1 < bbox.2.2.2 := by
  refine ⟨?_, ?_, ?_, ?_⟩ <;> norm_num [center, bbox]

end WhiteMatter
